import Mathlib

/-!
Shallow embedding of the diagnostic model of the vendored lexy header
(3rdparty/lexy/include/lexy/error.hpp) and of the Pose2D string converter
(sample_nodes/movebase_node.h), together with theorems checking the
specification's claims about them.

Cursors (the C++ `typename Reader::iterator`) are modelled by an arbitrary
type `It`; code-unit types (`typename Reader::encoding::char_type`) by an
arbitrary type `CharT`.  A C++ `const char*` is modelled by `CStr`, which is
either the null pointer or the pointed-to character data.  A pointer into a
code-unit buffer is modelled by the buffer itself (a `List CharT`); the
unchecked pointer read in `character()` becomes the fallible list read
`getElem?`, so an out-of-bounds access is visible as `none`.
-/

namespace lexy

/-- A C++ `const char*`: either null or the pointed-to characters. -/
inductive CStr where
  | null : CStr
  | str (s : List Char) : CStr
deriving DecidableEq, Repr

/-- Modelled from the spec: `_detail::type_name<Tag>()` (not under the sources
at hand) returns the compile-time name of the tag type, a static non-null
string, the message being derived from a compile-time failure-tag identity.
A tag type is represented by its name. -/
def type_name (tagName : String) : CStr :=
  CStr.str tagName.data

/-- `error<Reader, void>`: type-erased generic failure.  Fields as in the
source: `_pos`, `_end`, `_msg`. -/
structure ErrorVoid (It : Type) where
  _pos : It
  _end : It
  _msg : CStr
deriving DecidableEq, Repr

/-- Constructor `error(pos, msg)`: initialises `_pos(pos), _end(pos), _msg(msg)`. -/
def ErrorVoid.mkPos {It : Type} (pos : It) (msg : CStr) : ErrorVoid It :=
  { _pos := pos, _end := pos, _msg := msg }

/-- Constructor `error(begin, end, msg)`: initialises `_pos(begin), _end(end), _msg(msg)`. -/
def ErrorVoid.mkSpan {It : Type} (b e : It) (msg : CStr) : ErrorVoid It :=
  { _pos := b, _end := e, _msg := msg }

def ErrorVoid.position {It : Type} (e : ErrorVoid It) : It := e._pos

def ErrorVoid.message {It : Type} (e : ErrorVoid It) : CStr := e._msg

def ErrorVoid.begin {It : Type} (e : ErrorVoid It) : It := e._pos

def ErrorVoid.end_ {It : Type} (e : ErrorVoid It) : It := e._end

/-- `error<Reader, Tag>` constructor `error(pos)`: delegates to
`error<Reader, void>(pos, _detail::type_name<Tag>())`.  The derived class adds
no members, so its value is the base-class value. -/
def errorTagged_mkPos {It : Type} (tagName : String) (pos : It) : ErrorVoid It :=
  ErrorVoid.mkPos pos (type_name tagName)

/-- `error<Reader, Tag>` constructor `error(begin, end)`: delegates to
`error<Reader, void>(begin, end, _detail::type_name<Tag>())`. -/
def errorTagged_mkSpan {It : Type} (tagName : String) (b e : It) : ErrorVoid It :=
  ErrorVoid.mkSpan b e (type_name tagName)

/-- `error<Reader, expected_literal>`.  Fields as in the source:
`_pos`, `_str`, `_idx`, `_length`; the `char_type` pointer `_str` is modelled
by the pointed-to buffer. -/
structure ErrorExpectedLiteral (It CharT : Type) where
  _pos : It
  _str : List CharT
  _idx : Nat
  _length : Nat
deriving DecidableEq, Repr

/-- Constructor `error(pos, str, index, length)`. -/
def ErrorExpectedLiteral.mk' {It CharT : Type} (pos : It) (str : List CharT)
    (index length : Nat) : ErrorExpectedLiteral It CharT :=
  { _pos := pos, _str := str, _idx := index, _length := length }

def ErrorExpectedLiteral.position {It CharT : Type}
    (e : ErrorExpectedLiteral It CharT) : It := e._pos

def ErrorExpectedLiteral.string {It CharT : Type}
    (e : ErrorExpectedLiteral It CharT) : List CharT := e._str

def ErrorExpectedLiteral.index {It CharT : Type}
    (e : ErrorExpectedLiteral It CharT) : Nat := e._idx

def ErrorExpectedLiteral.length {It CharT : Type}
    (e : ErrorExpectedLiteral It CharT) : Nat := e._length

/-- `character()` returns `_str[_idx]`, an unchecked pointer read; modelled as
the fallible read so that an out-of-bounds access is `none`. -/
def ErrorExpectedLiteral.character {It CharT : Type}
    (e : ErrorExpectedLiteral It CharT) : Option CharT := e._str[e._idx]?

/-- `error<Reader, expected_keyword>`.  Fields as in the source:
`_begin`, `_end`, `_str`, `_length`. -/
structure ErrorExpectedKeyword (It CharT : Type) where
  _begin : It
  _end : It
  _str : List CharT
  _length : Nat
deriving DecidableEq, Repr

/-- Constructor `error(begin, end, str, length)`. -/
def ErrorExpectedKeyword.mk' {It CharT : Type} (b e : It) (str : List CharT)
    (length : Nat) : ErrorExpectedKeyword It CharT :=
  { _begin := b, _end := e, _str := str, _length := length }

/-- `position()` returns `_begin`. -/
def ErrorExpectedKeyword.position {It CharT : Type}
    (e : ErrorExpectedKeyword It CharT) : It := e._begin

def ErrorExpectedKeyword.begin {It CharT : Type}
    (e : ErrorExpectedKeyword It CharT) : It := e._begin

def ErrorExpectedKeyword.end_ {It CharT : Type}
    (e : ErrorExpectedKeyword It CharT) : It := e._end

def ErrorExpectedKeyword.string {It CharT : Type}
    (e : ErrorExpectedKeyword It CharT) : List CharT := e._str

def ErrorExpectedKeyword.length {It CharT : Type}
    (e : ErrorExpectedKeyword It CharT) : Nat := e._length

/-- `error<Reader, expected_char_class>`.  Fields as in the source:
`_pos`, `_name`. -/
structure ErrorExpectedCharClass (It : Type) where
  _pos : It
  _name : CStr
deriving DecidableEq, Repr

/-- Constructor `error(pos, name)`. -/
def ErrorExpectedCharClass.mk' {It : Type} (pos : It) (name : CStr) :
    ErrorExpectedCharClass It :=
  { _pos := pos, _name := name }

def ErrorExpectedCharClass.position {It : Type}
    (e : ErrorExpectedCharClass It) : It := e._pos

def ErrorExpectedCharClass.name {It : Type}
    (e : ErrorExpectedCharClass It) : CStr := e._name

/-!
Error context.  The compile-time detection idiom
`is_detected<_detect_parent_input, Input>` asks whether the static type of the
input exposes a `parent_input()` member.  The input types relevant to the
claims are chains of derived inputs, each derived input exposing a
parent-input relation to the input it derives from; they are modelled by the
inductive type `Input`: a base input (no `parent_input()` member, detection is
false) or a derived input storing the input it derives from (`parent_input()`
returns that stored input, detection is true).
-/

/-- An input: either a base input, or a derived input (a restricted view)
storing the input it derives from.  The payload distinguishes individual
inputs. -/
inductive Input where
  | base (id : Nat) : Input
  | derived (id : Nat) (parent : Input) : Input
deriving DecidableEq, Repr

/-- `_detail::is_detected<_detect_parent_input, Input>`: whether the input's
type exposes a `parent_input()` member. -/
def Input.hasParentInput : Input → Bool
  | .base _ => false
  | .derived _ _ => true

/-- `parent_input()`: the input a derived input derives from.  On a base input
the member does not exist; the branch returning the input itself is never
selected by the code, which only calls this under the detection guard. -/
def Input.parent_input : Input → Input
  | .base i => .base i
  | .derived _ p => p

/-- The outermost input of a chain, following the parent-input relation to its
end.  This is the spec's description of what `input()` returns; it is compared
against the source's `input()` below. -/
def Input.outermost : Input → Input
  | .base i => .base i
  | .derived _ p => p.outermost

/-- Modelled from the spec: `lexy::production_info` (declared in
`lexy/grammar.hpp`, not among the sources at hand) carries the name of a
grammar production; constructing it from a production type resolves the
production's compile-time name. -/
structure production_info where
  name : CStr
deriving DecidableEq, Repr

/-- Modelled from the spec: `production_name<Production>()` (not among the
sources at hand) resolves a production type, represented here by its name, to
a constant string.  -/
def production_name (productionLabel : String) : CStr :=
  CStr.str productionLabel.data

/-- Modelled from the spec: the implicit conversion of a production value to
`production_info`, which stores the production's compile-time name. -/
def production_info.ofProduction (productionLabel : String) : production_info :=
  { name := production_name productionLabel }

/-- `error_context<void, Input>`: fields as in the source: `_input` (a pointer
to the input, modelled by the input value), `_pos`, `_production`. -/
structure ErrorContextVoid (It : Type) where
  _input : Input
  _pos : It
  _production : CStr
deriving DecidableEq, Repr

/-- Constructor `error_context(production, input, pos)`: initialises
`_input(&input), _pos(pos), _production(production.name)`. -/
def ErrorContextVoid.mk' {It : Type} (production : production_info)
    (input : Input) (pos : It) : ErrorContextVoid It :=
  { _input := input, _pos := pos, _production := production.name }

/-- `input()`: if the input type exposes a parent-input relation, return
`_input->parent_input()`, else return `*_input`. -/
def ErrorContextVoid.input {It : Type} (c : ErrorContextVoid It) : Input :=
  if c._input.hasParentInput then c._input.parent_input else c._input

/-- `production()`: returns `_production`. -/
def ErrorContextVoid.production {It : Type} (c : ErrorContextVoid It) : CStr :=
  c._production

/-- `position()`: returns `_pos`. -/
def ErrorContextVoid.position {It : Type} (c : ErrorContextVoid It) : It :=
  c._pos

/-- `error_context<Production, Input>`: derives from `error_context<void, Input>`
adding no members; the production type, represented by its name, is part of the
static type. -/
structure ErrorContextStatic (It : Type) where
  productionLabel : String
  base : ErrorContextVoid It

/-- Constructor `error_context(production, input, pos)`: delegates to the base
constructor `error_context<void, Input>(production, input, pos)`, converting the
production value to `production_info`. -/
def ErrorContextStatic.mk' {It : Type} (productionLabel : String)
    (input : Input) (pos : It) : ErrorContextStatic It :=
  { productionLabel := productionLabel,
    base := ErrorContextVoid.mk' (production_info.ofProduction productionLabel) input pos }

/-- The overriding static `production()`: returns `production_name<Production>()`. -/
def ErrorContextStatic.production {It : Type} (c : ErrorContextStatic It) : CStr :=
  production_name c.productionLabel

/-!
Call forms of the accessors.  A C++ member call on an object has two
observable effects: the value it returns and the state of the object after the
call.  Each accessor below is re-embedded as a function from the object to the
pair (returned value, object after the call), translated from the member body:
each body is a single return of a stored field and performs no assignment, so
the object after the call is the object itself.
-/

def ErrorVoid.position_call {It : Type} (e : ErrorVoid It) : It × ErrorVoid It :=
  (e._pos, e)

def ErrorVoid.message_call {It : Type} (e : ErrorVoid It) : CStr × ErrorVoid It :=
  (e._msg, e)

def ErrorVoid.begin_call {It : Type} (e : ErrorVoid It) : It × ErrorVoid It :=
  (e._pos, e)

def ErrorVoid.end_call {It : Type} (e : ErrorVoid It) : It × ErrorVoid It :=
  (e._end, e)

def ErrorExpectedLiteral.position_call {It CharT : Type}
    (e : ErrorExpectedLiteral It CharT) : It × ErrorExpectedLiteral It CharT :=
  (e._pos, e)

def ErrorExpectedLiteral.string_call {It CharT : Type}
    (e : ErrorExpectedLiteral It CharT) : List CharT × ErrorExpectedLiteral It CharT :=
  (e._str, e)

def ErrorExpectedLiteral.index_call {It CharT : Type}
    (e : ErrorExpectedLiteral It CharT) : Nat × ErrorExpectedLiteral It CharT :=
  (e._idx, e)

def ErrorExpectedLiteral.length_call {It CharT : Type}
    (e : ErrorExpectedLiteral It CharT) : Nat × ErrorExpectedLiteral It CharT :=
  (e._length, e)

def ErrorExpectedLiteral.character_call {It CharT : Type}
    (e : ErrorExpectedLiteral It CharT) : Option CharT × ErrorExpectedLiteral It CharT :=
  (e._str[e._idx]?, e)

def ErrorExpectedKeyword.position_call {It CharT : Type}
    (e : ErrorExpectedKeyword It CharT) : It × ErrorExpectedKeyword It CharT :=
  (e._begin, e)

def ErrorExpectedKeyword.begin_call {It CharT : Type}
    (e : ErrorExpectedKeyword It CharT) : It × ErrorExpectedKeyword It CharT :=
  (e._begin, e)

def ErrorExpectedKeyword.end_call {It CharT : Type}
    (e : ErrorExpectedKeyword It CharT) : It × ErrorExpectedKeyword It CharT :=
  (e._end, e)

def ErrorExpectedKeyword.string_call {It CharT : Type}
    (e : ErrorExpectedKeyword It CharT) : List CharT × ErrorExpectedKeyword It CharT :=
  (e._str, e)

def ErrorExpectedKeyword.length_call {It CharT : Type}
    (e : ErrorExpectedKeyword It CharT) : Nat × ErrorExpectedKeyword It CharT :=
  (e._length, e)

def ErrorExpectedCharClass.position_call {It : Type}
    (e : ErrorExpectedCharClass It) : It × ErrorExpectedCharClass It :=
  (e._pos, e)

def ErrorExpectedCharClass.name_call {It : Type}
    (e : ErrorExpectedCharClass It) : CStr × ErrorExpectedCharClass It :=
  (e._name, e)

def ErrorContextVoid.input_call {It : Type}
    (c : ErrorContextVoid It) : Input × ErrorContextVoid It :=
  ((if c._input.hasParentInput then c._input.parent_input else c._input), c)

def ErrorContextVoid.production_call {It : Type}
    (c : ErrorContextVoid It) : CStr × ErrorContextVoid It :=
  (c._production, c)

def ErrorContextVoid.position_call {It : Type}
    (c : ErrorContextVoid It) : It × ErrorContextVoid It :=
  (c._pos, c)

/-- A member call is pure: it leaves the object unchanged, and a second call
on the object left behind returns the same value as the first. -/
def pureCall {α β : Type} (call : α → β × α) (a : α) : Prop :=
  (call a).2 = a ∧ (call ((call a).2)).1 = (call a).1

end lexy

namespace BT

/-- The custom geometric type of the sample node. -/
structure Pose2D (R : Type) where
  x : R
  y : R
  theta : R
deriving DecidableEq, Repr

/-- A thrown `BT::RuntimeError` is modelled as the error arm of `Except`
carrying the message. -/
abbrev BTResult (α : Type) := Except String α

/-- `BT::convertFromString<Pose2D>(key)` from `movebase_node.h`, parametrised
over its collaborators: `split` models `BT::splitString` and `convDouble`
models `convertFromString<double>` (both live outside the sources at hand, so
they stay abstract; the value type of a double is an arbitrary type `R`).
Splits the key on a semicolon; if the number of parts differs from 3, throws
`BT::RuntimeError("invalid input)")`; otherwise converts the three parts, in
order, into the `x`, `y` and `theta` fields. -/
def convertFromString_Pose2D {R : Type} (convDouble : String → R)
    (split : String → Char → List String) (key : String) : BTResult (Pose2D R) :=
  let parts := split key ';'
  if h : parts.length ≠ 3 then
    Except.error "invalid input)"
  else
    Except.ok
      { x := convDouble (parts.get ⟨0, by omega⟩),
        y := convDouble (parts.get ⟨1, by omega⟩),
        theta := convDouble (parts.get ⟨2, by omega⟩) }

end BT

/-!
Theorems for the claims.
-/

namespace lexy

/-- C1 (counterexample): against a chain of 3 nested derived inputs, an
error_context constructed against the innermost input does not return the
outermost input from input(): it returns the immediate parent, the depth-2
derived input, so the claim that input() follows the parent-input relation to
its end is false. -/
theorem errorContext_input_depth3_not_outermost :
    (ErrorContextVoid.mk' (production_info.ofProduction "p")
        (Input.derived 3 (Input.derived 2 (Input.derived 1 (Input.base 0)))) (0 : Nat)).input
        = Input.derived 2 (Input.derived 1 (Input.base 0))
    ∧ (ErrorContextVoid.mk' (production_info.ofProduction "p")
        (Input.derived 3 (Input.derived 2 (Input.derived 1 (Input.base 0)))) (0 : Nat)).input
        ≠ (Input.derived 3 (Input.derived 2 (Input.derived 1 (Input.base 0)))).outermost := by
  decide

/-- C1 (amended): input() unwraps exactly one level of the parent-input
relation: if the input the context was constructed against exposes the
relation, it returns that input's immediate parent, otherwise the input
itself.  Consequently for a chain of N = 0 nested derived inputs it returns
the input passed in, and for N = 1 it returns the outermost input. -/
theorem errorContext_input_unwraps_one_level {It : Type} (info : production_info)
    (pos : It) :
    (∀ id : Nat, (ErrorContextVoid.mk' info (Input.base id) pos).input = Input.base id)
    ∧ (∀ id pid : Nat,
        (ErrorContextVoid.mk' info (Input.derived id (Input.base pid)) pos).input
          = (Input.derived id (Input.base pid)).outermost)
    ∧ (∀ (id : Nat) (p : Input),
        (ErrorContextVoid.mk' info (Input.derived id p) pos).input = p) :=
  ⟨fun _ => rfl, fun _ _ => rfl, fun _ _ => rfl⟩

/-- C2: for each error variant, constructing a value and reading back every
declared field through its accessor returns exactly the values passed to the
constructor. -/
theorem error_variant_roundtrip {It CharT : Type} (pos b e : It) (msg name : CStr)
    (str : List CharT) (index length : Nat) :
    ((ErrorVoid.mkPos pos msg).position = pos ∧ (ErrorVoid.mkPos pos msg).message = msg)
    ∧ ((ErrorVoid.mkSpan b e msg).begin = b ∧ (ErrorVoid.mkSpan b e msg).end_ = e
        ∧ (ErrorVoid.mkSpan b e msg).position = b ∧ (ErrorVoid.mkSpan b e msg).message = msg)
    ∧ ((ErrorExpectedLiteral.mk' pos str index length).position = pos
        ∧ (ErrorExpectedLiteral.mk' pos str index length).string = str
        ∧ (ErrorExpectedLiteral.mk' pos str index length).index = index
        ∧ (ErrorExpectedLiteral.mk' pos str index length).length = length)
    ∧ ((ErrorExpectedKeyword.mk' b e str length).begin = b
        ∧ (ErrorExpectedKeyword.mk' b e str length).end_ = e
        ∧ (ErrorExpectedKeyword.mk' b e str length).string = str
        ∧ (ErrorExpectedKeyword.mk' b e str length).length = length)
    ∧ ((ErrorExpectedCharClass.mk' pos name).position = pos
        ∧ (ErrorExpectedCharClass.mk' pos name).name = name) :=
  ⟨⟨rfl, rfl⟩, ⟨rfl, rfl, rfl, rfl⟩, ⟨rfl, rfl, rfl, rfl⟩, ⟨rfl, rfl, rfl, rfl⟩, ⟨rfl, rfl⟩⟩

/-- C3: under the constructor precondition that the matched index is strictly
below the literal length and the literal buffer is valid for at least that
many code units, index() is below length() and character() is an in-bounds
read equal to the literal's code unit at the matched index. -/
theorem expected_literal_character_in_bounds {It CharT : Type} (pos : It)
    (str : List CharT) (index length : Nat)
    (hpre : index < length) (hvalid : length ≤ str.length) :
    (ErrorExpectedLiteral.mk' pos str index length).index
        < (ErrorExpectedLiteral.mk' pos str index length).length
    ∧ (ErrorExpectedLiteral.mk' pos str index length).character
        = some (str.get ⟨index, by omega⟩) := by
  refine ⟨hpre, ?_⟩
  simp [ErrorExpectedLiteral.mk', ErrorExpectedLiteral.character,
    List.getElem?_eq_getElem (show index < str.length by omega)]

/-- C3 (witness): a concrete expected_literal error with matched index 3 out
of literal length 4 over a 4-unit buffer. -/
theorem expected_literal_character_in_bounds_witness :
    (ErrorExpectedLiteral.mk' (0 : Nat) (['t', 'r', 'u', 'e'] : List Char) 3 4).index
        < (ErrorExpectedLiteral.mk' (0 : Nat) (['t', 'r', 'u', 'e'] : List Char) 3 4).length
    ∧ (ErrorExpectedLiteral.mk' (0 : Nat) (['t', 'r', 'u', 'e'] : List Char) 3 4).character
        = some 'e' := by
  have h := @expected_literal_character_in_bounds Nat Char 0 ['t', 'r', 'u', 'e'] 3 4
    (by decide) (by decide)
  exact ⟨h.1, h.2.trans (by decide)⟩

/-- C4: constructing an error_context with a statically known production type
yields the same production() text as constructing the type-erased
error_context with that production's name passed dynamically via
production_info. -/
theorem production_static_dynamic_agree {It : Type} (productionLabel : String)
    (input : Input) (pos : It) :
    (ErrorContextStatic.mk' productionLabel input pos).production
      = (ErrorContextVoid.mk' (production_info.ofProduction productionLabel)
          input pos).production :=
  rfl

/-- C5: for expected_keyword and the two-cursor generic error, under the
constructor precondition that the begin cursor is at or before the end cursor,
the accessed span satisfies that end() is not before begin() under the
cursor ordering. -/
theorem span_end_not_before_begin {It CharT : Type} [LE It] (b e : It)
    (str : List CharT) (length : Nat) (msg : CStr) (h : b ≤ e) :
    (ErrorExpectedKeyword.mk' b e str length).begin
        ≤ (ErrorExpectedKeyword.mk' b e str length).end_
    ∧ (ErrorVoid.mkSpan b e msg).begin ≤ (ErrorVoid.mkSpan b e msg).end_ :=
  ⟨h, h⟩

/-- C5 (witness): a concrete span with begin 2 and end 5 over natural-number
cursors. -/
theorem span_end_not_before_begin_witness :
    (ErrorExpectedKeyword.mk' (2 : Nat) 5 (['a'] : List Char) 1).begin
        ≤ (ErrorExpectedKeyword.mk' (2 : Nat) 5 (['a'] : List Char) 1).end_
    ∧ (ErrorVoid.mkSpan (2 : Nat) 5 (CStr.str ['m'])).begin
        ≤ (ErrorVoid.mkSpan (2 : Nat) 5 (CStr.str ['m'])).end_ :=
  span_end_not_before_begin 2 5 ['a'] 1 (CStr.str ['m']) (by decide)

/-- C6: for the single-position generic constructor, end() equals begin()
equals position(), all equal to the position passed in. -/
theorem generic_single_pos_end_eq_begin {It : Type} (pos : It) (msg : CStr) :
    (ErrorVoid.mkPos pos msg).end_ = (ErrorVoid.mkPos pos msg).begin
    ∧ (ErrorVoid.mkPos pos msg).begin = (ErrorVoid.mkPos pos msg).position
    ∧ (ErrorVoid.mkPos pos msg).position = pos :=
  ⟨rfl, rfl, rfl⟩

/-- C7: no accessor of any error variant or of the error context mutates
observable state: every accessor call leaves the object unchanged, and a
repeated call returns the identical result. -/
theorem accessors_pure {It CharT : Type} (e : ErrorVoid It)
    (l : ErrorExpectedLiteral It CharT) (k : ErrorExpectedKeyword It CharT)
    (c : ErrorExpectedCharClass It) (ctx : ErrorContextVoid It) :
    pureCall ErrorVoid.position_call e ∧ pureCall ErrorVoid.message_call e
    ∧ pureCall ErrorVoid.begin_call e ∧ pureCall ErrorVoid.end_call e
    ∧ pureCall ErrorExpectedLiteral.position_call l
    ∧ pureCall ErrorExpectedLiteral.string_call l
    ∧ pureCall ErrorExpectedLiteral.index_call l
    ∧ pureCall ErrorExpectedLiteral.length_call l
    ∧ pureCall ErrorExpectedLiteral.character_call l
    ∧ pureCall ErrorExpectedKeyword.position_call k
    ∧ pureCall ErrorExpectedKeyword.begin_call k
    ∧ pureCall ErrorExpectedKeyword.end_call k
    ∧ pureCall ErrorExpectedKeyword.string_call k
    ∧ pureCall ErrorExpectedKeyword.length_call k
    ∧ pureCall ErrorExpectedCharClass.position_call c
    ∧ pureCall ErrorExpectedCharClass.name_call c
    ∧ pureCall ErrorContextVoid.input_call ctx
    ∧ pureCall ErrorContextVoid.production_call ctx
    ∧ pureCall ErrorContextVoid.position_call ctx :=
  ⟨⟨rfl, rfl⟩, ⟨rfl, rfl⟩, ⟨rfl, rfl⟩, ⟨rfl, rfl⟩, ⟨rfl, rfl⟩, ⟨rfl, rfl⟩,
    ⟨rfl, rfl⟩, ⟨rfl, rfl⟩, ⟨rfl, rfl⟩, ⟨rfl, rfl⟩, ⟨rfl, rfl⟩, ⟨rfl, rfl⟩,
    ⟨rfl, rfl⟩, ⟨rfl, rfl⟩, ⟨rfl, rfl⟩, ⟨rfl, rfl⟩, ⟨rfl, rfl⟩, ⟨rfl, rfl⟩,
    ⟨rfl, rfl⟩⟩

/-- C8: for every expected_keyword error, position() is defined and equals
begin(), the start of the attempted keyword span. -/
theorem expected_keyword_position_eq_begin {It CharT : Type} (b e : It)
    (str : List CharT) (length : Nat) :
    (ErrorExpectedKeyword.mk' b e str length).position
      = (ErrorExpectedKeyword.mk' b e str length).begin
    ∧ (ErrorExpectedKeyword.mk' b e str length).position = b :=
  ⟨rfl, rfl⟩

/-- C9: the tagged generic error constructed from cursors alone equals the
type-erased generic error constructed from the same cursors with the tag's
compile-time type name as message; its message() equals that type name and is
never null. -/
theorem tagged_error_refines_generic {It : Type} (tagName : String) (pos b e : It) :
    errorTagged_mkPos tagName pos = ErrorVoid.mkPos pos (type_name tagName)
    ∧ errorTagged_mkSpan tagName b e = ErrorVoid.mkSpan b e (type_name tagName)
    ∧ (errorTagged_mkPos tagName pos).message = type_name tagName
    ∧ (errorTagged_mkSpan tagName b e).message = type_name tagName
    ∧ (errorTagged_mkPos tagName pos).message ≠ CStr.null :=
  ⟨rfl, rfl, rfl, rfl, fun h => CStr.noConfusion h⟩

end lexy

namespace BT

/-- C10: convertFromString for Pose2D throws RuntimeError exactly when
splitting the key on a semicolon yields a number of parts different from 3;
otherwise it returns a Pose2D whose x, y and theta are the double conversions
of the first, second and third part, in that order. -/
theorem convertFromString_Pose2D_spec {R : Type} (convDouble : String → R)
    (split : String → Char → List String) (key : String) :
    ((∃ msg, convertFromString_Pose2D convDouble split key = Except.error msg)
        ↔ (split key ';').length ≠ 3)
    ∧ ∀ h : (split key ';').length = 3,
        convertFromString_Pose2D convDouble split key
          = Except.ok
              { x := convDouble ((split key ';').get ⟨0, by omega⟩),
                y := convDouble ((split key ';').get ⟨1, by omega⟩),
                theta := convDouble ((split key ';').get ⟨2, by omega⟩) } := by
  unfold convertFromString_Pose2D
  by_cases h3 : (split key ';').length = 3
  · simp [h3]
  · simp [h3]

/-- C10 (witness): with a splitter producing exactly the parts 1, 22 and 333
and string length standing in for the double conversion, the converter
succeeds with x 1, y 2 and theta 3; the error arm is impossible. -/
theorem convertFromString_Pose2D_spec_witness :
    (¬∃ msg, convertFromString_Pose2D String.length
        (fun _ _ => ["1", "22", "333"]) "k" = Except.error msg)
    ∧ convertFromString_Pose2D String.length (fun _ _ => ["1", "22", "333"]) "k"
        = Except.ok { x := 1, y := 2, theta := 3 } := by
  have h := convertFromString_Pose2D_spec String.length
    (fun _ _ => ["1", "22", "333"]) "k"
  refine ⟨fun hex => (h.1.mp hex) rfl, (h.2 rfl).trans (by rfl)⟩

end BT
